import Mathlib

/-!
Verification development for the assetgen incremental build engine
(src/assetgen/__init__.py).  The Python source is shallowly embedded:
filesystem state is an oracle function from paths to optional values,
stateful methods become explicit state-passing functions, and Python
exceptions become Except values.
-/

namespace Assetgen

/-- Filesystem modification-time oracle: some mtime when stat succeeds,
none when the path is absent (stat raises). -/
def FS : Type := String → Option Nat

/-- Model of os.path.join for the relative second components used here. -/
def pjoin (d p : String) : String := d ++ "/" ++ p

/-- Model of os.path.isfile: a path exists iff the oracle has an entry. -/
def isfile (fs : FS) (p : String) : Bool := (fs p).isSome

/-- Association-list lookup, modelling Python dict read d[k] / d.get(k). -/
def alookup {α : Type} : List (String × α) → String → Option α
  | [], _ => none
  | (k, v) :: rest, key => if k = key then some v else alookup rest key

/-- Association-list update, modelling Python dict write d[k] = v. -/
def aset {α : Type} : List (String × α) → String → α → List (String × α)
  | [], key, v => [(key, v)]
  | (k, w) :: rest, key, v =>
      if k = key then (k, v) :: rest else (k, w) :: aset rest key v

/-- Association-list removal, modelling Python dict d.pop(k). -/
def aerase {α : Type} : List (String × α) → String → List (String × α)
  | [], _ => []
  | (k, v) :: rest, key =>
      if k = key then aerase rest key else (k, v) :: aerase rest key

/-- Effective mtime as the function newer resolves it (lines 106-117):
the cache value when present, otherwise a fresh stat. -/
def mt (fs cache : FS) (p : String) : Option Nat :=
  match cache p with
  | some m => some m
  | none => fs p

/-- Second half of newer (lines 111-119): resolve the output mtime from
the cache or a stat and compare; a failed stat of the output means stale
(return 1).  The input mtime im and the stat trace so far are passed in. -/
def newerOut (fs cache : FS) (im : Nat) (output : String) (tr : List String) :
    Except Unit Bool × List String :=
  match cache output with
  | some om => (Except.ok (decide (om ≤ im)), tr)
  | none =>
      match fs output with
      | some om => (Except.ok (decide (om ≤ im)), tr ++ [output])
      | none => (Except.ok true, tr ++ [output])

/-- Embedding of newer (lines 106-119).  Returns the truthiness of the
Python return value together with the list of paths it statted; the
error case is the uncaught OSError when stat(input) fails.  Note the
source reads the cache but never writes to it. -/
def newerT (fs cache : FS) (input output : String) :
    Except Unit Bool × List String :=
  match cache input with
  | some im => newerOut fs cache im output []
  | none =>
      match fs input with
      | some im => newerOut fs cache im output [input]
      | none => (Except.error (), [input])

/-- Dependency loop of is_fresh (lines 669-672 and 687-690): scan the
declared dependencies against the representative output, stopping at
the first one that newer reports stale. -/
def depScan (fs cache : FS) (out : String) :
    List String → Except Unit Bool × List String
  | [] => (Except.ok false, [])
  | d :: ds =>
      match newerT fs cache d out with
      | (Except.error _, tr) => (Except.error (), tr)
      | (Except.ok true, tr) => (Except.ok true, tr)
      | (Except.ok false, tr) =>
          let r := depScan fs cache out ds
          (r.1, tr ++ r.2)

/-- Runner fields consulted by is_fresh (lines 660-694). -/
structure FreshCtx where
  force : Bool
  prereq : Bool
  base_dir : String
  output_dir : String
  config_path : String
  fs : FS
  cache : FS

/-- Produced-path records mutated by is_fresh. -/
structure FreshState where
  prereq_data : List (String × List String)
  output_data : List (String × List String)

/-- Embedding of AssetGenRunner.is_fresh (lines 660-694).  Returns the
truthiness of the result (error for an uncaught stat failure), the
updated produced-path records, and the trace of paths statted by the
newer calls.  The representative output of the output phase is
list(paths).pop(), i.e. the last element of the stored collection. -/
def is_fresh (ctx : FreshCtx) (st : FreshState) (key : String)
    (depends : List String) :
    Except Unit Bool × FreshState × List String :=
  if ctx.force then (Except.ok false, st, [])
  else if ctx.prereq then
    let output := pjoin ctx.base_dir key
    if isfile ctx.fs output = false then
      (Except.ok false, { st with prereq_data := aerase st.prereq_data key }, [])
    else
      match depScan ctx.fs ctx.cache output depends with
      | (Except.error _, tr) => (Except.error (), st, tr)
      | (Except.ok true, tr) =>
          (Except.ok false, { st with prereq_data := aerase st.prereq_data key }, tr)
      | (Except.ok false, tr) =>
          match newerT ctx.fs ctx.cache ctx.config_path output with
          | (Except.error _, tr2) => (Except.error (), st, tr ++ tr2)
          | (Except.ok true, tr2) =>
              (Except.ok false,
               { st with prereq_data := aerase st.prereq_data key }, tr ++ tr2)
          | (Except.ok false, tr2) => (Except.ok true, st, tr ++ tr2)
  else
    match alookup st.output_data key with
    | none => (Except.ok false, st, [])
    | some paths =>
      match paths.getLast? with
      | none => (Except.ok false, st, [])
      | some lastp =>
        if paths.all (fun q => isfile ctx.fs (pjoin ctx.output_dir q)) = false then
          (Except.ok false, { st with output_data := aerase st.output_data key }, [])
        else
          let output := pjoin ctx.output_dir lastp
          match depScan ctx.fs ctx.cache output depends with
          | (Except.error _, tr) => (Except.error (), st, tr)
          | (Except.ok true, tr) =>
              (Except.ok false, { st with output_data := aerase st.output_data key }, tr)
          | (Except.ok false, tr) =>
              match newerT ctx.fs ctx.cache ctx.config_path output with
              | (Except.error _, tr2) => (Except.error (), st, tr ++ tr2)
              | (Except.ok true, tr2) =>
                  (Except.ok false,
                   { st with output_data := aerase st.output_data key }, tr ++ tr2)
              | (Except.ok false, tr2) => (Except.ok true, st, tr ++ tr2)

/-- Manifest-relevant state of the emission sink: the logical-to-versioned
manifest, its dirty flag, and the set of physical files present in the
output directory (by versioned path). -/
structure EmitState where
  manifest : List (String × String)
  manifest_changed : Bool
  files : List String
deriving DecidableEq

/-- File creation: the write at lines 636-638 creates the versioned file
(overwriting in place if it already exists). -/
def insertFile (files : List String) (p : String) : List String :=
  if p ∈ files then files else files ++ [p]

/-- Embedding of the output-phase tail of AssetGenRunner.emit
(lines 636-658), taking the already-computed logical path and versioned
output path: write the physical file, then update the manifest -- if the
logical path already maps to the same versioned path, return with nothing
else changed; if it maps to a different one, remove the old physical file
when present (the isfile guard at line 654 skips a missing file), store
the new mapping and set the dirty flag. -/
def emitOutput (st : EmitState) (path output_path : String) : EmitState :=
  let files := insertFile st.files output_path
  match alookup st.manifest path with
  | some ex_output_path =>
      if output_path = ex_output_path then
        { st with files := files }
      else
        { manifest := aset st.manifest path output_path
          manifest_changed := true
          files := files.erase ex_output_path }
  | none =>
      { manifest := aset st.manifest path output_path
        manifest_changed := true
        files := files }

/-- Python exceptions distinguished by the CSS embedding pass: AppExit is
the recoverable abort condition raised by exit() (lines 131-133), while
keyError models an unhandled mapping-lookup failure (dict subscript on a
missing key). -/
inductive PyErr : Type where
  | appExit : PyErr
  | keyError : PyErr
deriving DecidableEq

/-- Standard base64 alphabet digit. -/
def b64Digit (n : Nat) : Char :=
  ("ABCDEFGHIJKLMNOPQRSTUVWXYZabcdefghijklmnopqrstuvwxyz0123456789+/").toList.getD n 'A'

/-- Base64 encoding of a byte list, three bytes to four output characters
with trailing padding, as b64encode produces. -/
def b64Chunks : List Nat → List Char
  | [] => []
  | [a] => [b64Digit (a / 4), b64Digit (a % 4 * 16), Char.ofNat 61, Char.ofNat 61]
  | [a, b] =>
      [b64Digit (a / 4), b64Digit (a % 4 * 16 + b / 16), b64Digit (b % 16 * 4),
       Char.ofNat 61]
  | a :: b :: c :: rest =>
      b64Digit (a / 4) :: b64Digit (a % 4 * 16 + b / 16) ::
        b64Digit (b % 16 * 4 + c / 64) :: b64Digit (c % 64) :: b64Chunks rest

/-- Model of base64.b64encode over strings-as-byte-sequences. -/
def b64encode (s : String) : String :=
  String.mk (b64Chunks (s.toList.map Char.toNat))

/-- Model of os.path.split: split a path at its last slash, giving the
directory part without the slash and the filename part. -/
def pathSplit (p : String) : String × String :=
  let r := p.toList.reverse
  let fname := r.takeWhile (fun c => c != '/')
  if fname.length = r.length then ("", p)
  else (String.mk ((r.drop (fname.length + 1)).reverse), String.mk fname.reverse)

/-- CSSAsset configuration and external collaborators: the embed root and
url base from the spec, the runner's hashed flag, the data limit from
spec.get, MIME type guessing, raw file reads (none models IOError), and
the sha1 hex digest. -/
structure CSSCtx where
  embed_path_root : String
  embed_url_base : String
  hashed : Bool
  data_limit : Nat
  guess : String → Option String
  fsRead : String → Option String
  s1 : String → String

/-- Per-generate mutable CSSAsset state: the first-pass flag and the embed
resolution cache keyed by relative path, holding (data-or-fallback-text,
ok flag) pairs as at lines 276-280. -/
structure CSSState where
  first : Bool
  cache : List (String × (String × Bool))
deriving DecidableEq

/-- Embedding of CSSAsset.get_embed_url (lines 282-293) instantiated at
the default css.embed.url.template, which concatenates the url base, the
directory part of the path, a slash, the hash digest and the filename.
The digest is empty when no data is given or hashing is disabled. -/
def get_embed_url (ctx : CSSCtx) (path : String) (data : Option String) : String :=
  let digest :=
    match data with
    | none => ""
    | some d => if ctx.hashed then ctx.s1 d ++ "-" else ""
  let parts := pathSplit path
  ctx.embed_url_base ++ parts.1 ++ "/" ++ digest ++ parts.2

/-- Model of dict.setdefault on the embed cache: keep an existing entry,
otherwise store and return the supplied value. -/
def cacheSetdefault (st : CSSState) (path : String) (v : String × Bool) :
    (String × Bool) × CSSState :=
  match alookup st.cache path with
  | some old => (old, st)
  | none => (v, { st with cache := st.cache ++ [(path, v)] })

/-- Embedding of CSSAsset.get_embed_file (lines 267-280).  On any pass
after the first, the cache is subscripted directly, so a missing key is
an unhandled keyError.  On the first pass a failed read produces the
url() fallback (built with no data, hence an empty hash) cached with ok
flag false; a successful read caches the data with ok flag true. -/
def get_embed_file (ctx : CSSCtx) (st : CSSState) (path : String) :
    Except PyErr ((String × Bool) × CSSState) :=
  if st.first = false then
    match alookup st.cache path with
    | some v => Except.ok (v, st)
    | none => Except.error PyErr.keyError
  else
    match ctx.fsRead (pjoin ctx.embed_path_root path) with
    | none =>
        Except.ok (cacheSetdefault st path
          ("url(\"" ++ get_embed_url ctx path none ++ "\")", false))
    | some data => Except.ok (cacheSetdefault st path (data, true))

/-- Embedding of CSSAsset.convert_to_data_uri (lines 246-258): abort when
no content type is guessable, pass a fallback through unchanged, fall
back to the url() form when a nonzero data limit is exceeded by the
base64 payload, and otherwise inline the data URI. -/
def convert_to_data_uri (ctx : CSSCtx) (st : CSSState) (path : String) :
    Except PyErr (String × CSSState) :=
  match ctx.guess path with
  | none => Except.error PyErr.appExit
  | some ctype =>
      match get_embed_file ctx st path with
      | Except.error e => Except.error e
      | Except.ok ((data, okFlag), st1) =>
          if okFlag = false then Except.ok (data, st1)
          else
            let content := b64encode data
            if ctx.data_limit ≠ 0 ∧ ctx.data_limit < content.length then
              Except.ok
                ("url(\"" ++ get_embed_url ctx path (some data) ++ "\")", st1)
            else
              Except.ok
                ("url(\"data:" ++ ctype ++ ";base64," ++ content ++ "\")", st1)

/-- Embedding of CSSAsset.convert_to_url (lines 260-265). -/
def convert_to_url (ctx : CSSCtx) (st : CSSState) (path : String) :
    Except PyErr (String × CSSState) :=
  match get_embed_file ctx st path with
  | Except.error e => Except.error e
  | Except.ok ((data, okFlag), st1) =>
      if okFlag = false then Except.ok (data, st1)
      else Except.ok ("url(\"" ++ get_embed_url ctx path (some data) ++ "\")", st1)

/-- Regex substitution loop of substitute_embeds: the content is modelled
as its list of embed-pattern occurrences (the captured relative paths),
each replaced left to right by the replacer, threading the asset state. -/
def embedSub (rep : CSSState → String → Except PyErr (String × CSSState)) :
    CSSState → List String → Except PyErr (List String × CSSState)
  | st, [] => Except.ok ([], st)
  | st, p :: ps =>
      match rep st p with
      | Except.error e => Except.error e
      | Except.ok (s, st1) =>
          match embedSub rep st1 ps with
          | Except.error e => Except.error e
          | Except.ok (outs, st2) => Except.ok (s :: outs, st2)

/-- Embedding of CSSAsset.embed (lines 295-298): substitute, then clear
the first-pass flag. -/
def cssEmbed (rep : CSSState → String → Except PyErr (String × CSSState))
    (st : CSSState) (content : List String) :
    Except PyErr (List String × CSSState) :=
  match embedSub rep st content with
  | Except.error e => Except.error e
  | Except.ok (outs, st1) => Except.ok (outs, { st1 with first := false })

/-- Bidi loop of CSSAsset.generate (lines 304-352) in the embed-configured
case (embed root and url base both set): one content per bidi variant;
each variant runs the data-URI substitution pass and, unless embed.only
is set (which returns after emitting only that pass), the url()
substitution pass over the same content, with the asset state carried
across passes and variants. -/
def bidiLoop (ctx : CSSCtx) (embedOnly : Bool) :
    CSSState → List (List String) →
    Except PyErr (List (List String) × CSSState)
  | st, [] => Except.ok ([], st)
  | st, content :: rest =>
      match cssEmbed (convert_to_data_uri ctx) st content with
      | Except.error e => Except.error e
      | Except.ok (out1, st1) =>
          if embedOnly then Except.ok ([out1], st1)
          else
            match cssEmbed (convert_to_url ctx) st1 content with
            | Except.error e => Except.error e
            | Except.ok (out2, st2) =>
                match bidiLoop ctx embedOnly st2 rest with
                | Except.error e => Except.error e
                | Except.ok (outs, st3) => Except.ok (out1 :: out2 :: outs, st3)

/-- Embedding of CSSAsset.generate (lines 300-353) in the embed-configured
case: the first-pass flag is set and the cache cleared once at the start
of the call (lines 302-303), then the bidi variants run. -/
def cssGenerate (ctx : CSSCtx) (embedOnly : Bool)
    (contents : List (List String)) :
    Except PyErr (List (List String) × CSSState) :=
  bidiLoop ctx embedOnly { first := true, cache := [] } contents

/-- Default css.embed.data_limit from the DEFAULTS table (line 55). -/
def css_embed_data_limit_default : Nat := 32000

/-- Observable behaviour of one asset inside AssetGenRunner.run: whether
is_fresh reported it fresh, whether generate() succeeded or raised
AppExit, and whether its emits set the manifest dirty flag. -/
structure AssetRun where
  fresh : Bool
  genOk : Bool
  changesManifest : Bool
deriving DecidableEq

/-- On-disk files written only by run: the manifest file and the durable
state (data) file, none when absent. -/
structure RunFiles where
  manifestFile : Option String
  dataFile : Option String
deriving DecidableEq

/-- Inputs of one AssetGenRunner.run invocation: the virgin flag, the two
asset phases, the manifest configuration, and the contents that the two
end-of-run writes would serialize. -/
structure RunCfg where
  virgin : Bool
  prereqs : List AssetRun
  outputs : List AssetRun
  hasManifestPath : Bool
  manifest_force : Bool
  force : Bool
  manifestOut : String
  dataOut : String
deriving DecidableEq

/-- Phase loop of run (lines 711-714 and 716-719): for each asset in
declaration order, if it is not fresh, set the changed flag and generate
it; a generate() that raises AppExit propagates out of the loop.  The
accumulator carries (changed flag, manifest dirty flag). -/
def phaseLoop : List AssetRun → Bool × Bool → Except Unit (Bool × Bool)
  | [], st => Except.ok st
  | a :: rest, (change, mch) =>
      if a.fresh then phaseLoop rest (change, mch)
      else if a.genOk then phaseLoop rest (true, mch || a.changesManifest)
      else Except.error ()

/-- Embedding of AssetGenRunner.run (lines 696-729): the changed flag
starts true on the virgin invocation, manifest_changed starts false, both
phases process the assets, and only after every asset has been processed
are the manifest file (when configured and dirty or forced) and, when the
changed flag is set, the durable state file written.  The result pairs
the disk state when the invocation ends with whether it aborted. -/
def runModel (cfg : RunCfg) (disk : RunFiles) : RunFiles × Except Unit Unit :=
  let change0 := cfg.virgin
  match phaseLoop cfg.prereqs (change0, false) with
  | Except.error _ => (disk, Except.error ())
  | Except.ok st1 =>
      match phaseLoop cfg.outputs st1 with
      | Except.error _ => (disk, Except.error ())
      | Except.ok (change, mch) =>
          let d1 :=
            if cfg.hasManifestPath && (mch || cfg.manifest_force || cfg.force)
            then { disk with manifestFile := some cfg.manifestOut } else disk
          let d2 :=
            if change then { d1 with dataFile := some cfg.dataOut } else d1
          (d2, Except.ok ())

/-- Embedding of the durable-state load at engine construction
(lines 420-428): no file yields the empty record, a deserialization that
raises any exception yields the empty record, and a successful load
yields the stored record. -/
def loadData (stored : Option (Except Unit (List (String × String)))) :
    List (String × String) :=
  match stored with
  | none => []
  | some (Except.error _) => []
  | some (Except.ok d) => d

/-! Helper lemmas. -/

/-- Updating an association list makes the key map to the new value. -/
theorem alookup_aset_self {α : Type} (m : List (String × α)) (k : String) (v : α) :
    alookup (aset m k v) k = some v := by
  induction m with
  | nil => simp [aset, alookup]
  | cons kv rest ih =>
      obtain ⟨k2, w⟩ := kv
      by_cases h : k2 = k
      · simp [aset, h, alookup]
      · simp [aset, h, alookup, ih]

/-- Membership in the file set after a write. -/
theorem mem_insertFile {l : List String} {p x : String} :
    x ∈ insertFile l p ↔ x ∈ l ∨ x = p := by
  unfold insertFile
  by_cases hp : p ∈ l
  · simp only [hp, if_true]
    constructor
    · exact Or.inl
    · rintro (h | rfl)
      · exact h
      · exact hp
  · simp [hp]

/-- Writing a file preserves distinctness of the file set. -/
theorem insertFile_nodup {l : List String} (p : String) (h : l.Nodup) :
    (insertFile l p).Nodup := by
  unfold insertFile
  by_cases hp : p ∈ l
  · simpa [hp]
  · simp [hp, List.nodup_append, h]

/-- C1: in the output phase, emitting under a logical path that already
maps to a different versioned path deletes the old physical artifact
(a deletion that finds the file absent is a no-op), points the manifest
at the new versioned path and marks it dirty; emitting the same
versioned path again leaves the manifest and the dirty flag untouched.
Hence each logical path keeps at most one live versioned artifact. -/
theorem emit_single_live_artifact (st : EmitState) (p v ex : String)
    (hex : alookup st.manifest p = some ex) :
    (ex ≠ v →
      alookup (emitOutput st p v).manifest p = some v ∧
      (emitOutput st p v).manifest_changed = true ∧
      (emitOutput st p v).files = (insertFile st.files v).erase ex ∧
      (st.files.Nodup → ex ∉ (emitOutput st p v).files) ∧
      (ex ∉ st.files → (emitOutput st p v).files = insertFile st.files v)) ∧
    (ex = v → emitOutput st p v = { st with files := insertFile st.files v }) := by
  constructor
  · intro hne
    have hvne : ¬ (v = ex) := fun h => hne h.symm
    simp only [emitOutput, hex]
    rw [if_neg hvne]
    refine ⟨alookup_aset_self _ _ _, rfl, rfl, ?_, ?_⟩
    · intro hnd
      exact (insertFile_nodup v hnd).not_mem_erase
    · intro hknown
      have : ex ∉ insertFile st.files v := by
        rw [mem_insertFile]
        rintro (h | h)
        · exact hknown h
        · exact hne h
      exact List.erase_of_not_mem this
  · intro heq
    subst heq
    simp [emitOutput, hex]

/-- Witness for C1 at a concrete state: the logical path s.css maps to
old-s.css with the old artifact on disk; after emitting new-s.css the
manifest is updated, marked dirty, and the old artifact is gone, while
re-emitting the identical versioned path changes nothing. -/
theorem emit_single_live_artifact_check :
    alookup (emitOutput (EmitState.mk [("s.css", "old-s.css")] false
      ["old-s.css"]) "s.css" "new-s.css").manifest "s.css" = some "new-s.css" ∧
    (emitOutput (EmitState.mk [("s.css", "old-s.css")] false
      ["old-s.css"]) "s.css" "new-s.css").manifest_changed = true ∧
    "old-s.css" ∉ (emitOutput (EmitState.mk [("s.css", "old-s.css")] false
      ["old-s.css"]) "s.css" "new-s.css").files ∧
    emitOutput (EmitState.mk [("s.css", "old-s.css")] false ["old-s.css"])
      "s.css" "old-s.css" =
      EmitState.mk [("s.css", "old-s.css")] false ["old-s.css"] := by
  have h1 := emit_single_live_artifact
    (EmitState.mk [("s.css", "old-s.css")] false ["old-s.css"])
    "s.css" "new-s.css" "old-s.css" rfl
  have h2 := emit_single_live_artifact
    (EmitState.mk [("s.css", "old-s.css")] false ["old-s.css"])
    "s.css" "old-s.css" "old-s.css" rfl
  have ha := h1.1 (by decide)
  refine ⟨ha.1, ha.2.1, ha.2.2.2.1 (by decide), ?_⟩
  have hb := h2.2 rfl
  simpa [insertFile] using hb

/-- Result of the output-side comparison when the output's effective
mtime resolves. -/
theorem newerOut_fst (fs cache : FS) (im : Nat) (o : String) (tr : List String)
    {om : Nat} (ho : mt fs cache o = some om) :
    (newerOut fs cache im o tr).1 = Except.ok (decide (om ≤ im)) := by
  unfold mt at ho
  unfold newerOut
  cases hco : cache o with
  | some m =>
      rw [hco] at ho
      injection ho with h
      subst h
      rfl
  | none =>
      rw [hco] at ho
      cases hfo : fs o with
      | some m =>
          rw [hfo] at ho
          injection ho with h
          subst h
          rfl
      | none =>
          rw [hfo] at ho
          cases ho

/-- Comparison semantics of newer when both effective mtimes resolve:
stale is reported exactly when the input mtime is greater than or equal
to the output mtime (line 118), so a tie counts as stale. -/
theorem newerT_fst (fs cache : FS) (i o : String) {im om : Nat}
    (hi : mt fs cache i = some im) (ho : mt fs cache o = some om) :
    (newerT fs cache i o).1 = Except.ok (decide (om ≤ im)) := by
  unfold mt at hi
  unfold newerT
  cases hci : cache i with
  | some m =>
      rw [hci] at hi
      injection hi with h
      subst h
      exact newerOut_fst fs cache _ o [] ho
  | none =>
      rw [hci] at hi
      cases hfi : fs i with
      | some m =>
          rw [hfi] at hi
          injection hi with h
          subst h
          exact newerOut_fst fs cache _ o [i] ho
      | none =>
          rw [hfi] at hi
          cases hi

/-- A resolvable input mtime means newer does not raise. -/
theorem newerT_ok_of_input (fs cache : FS) (i o : String) {im : Nat}
    (hi : mt fs cache i = some im) :
    ∃ b, (newerT fs cache i o).1 = Except.ok b := by
  unfold mt at hi
  unfold newerT newerOut
  cases hci : cache i with
  | some m =>
      cases cache o with
      | some om => exact ⟨_, rfl⟩
      | none =>
          cases fs o with
          | some om => exact ⟨_, rfl⟩
          | none => exact ⟨_, rfl⟩
  | none =>
      rw [hci] at hi
      cases hfi : fs i with
      | some m =>
          cases cache o with
          | some om => exact ⟨_, rfl⟩
          | none =>
              cases fs o with
              | some om => exact ⟨_, rfl⟩
              | none => exact ⟨_, rfl⟩
      | none =>
          rw [hfi] at hi
          cases hi

/-- The dependency scan does not raise when every dependency's effective
mtime resolves. -/
theorem depScan_ok (fs cache : FS) (out : String) (l : List String)
    (hl : ∀ d ∈ l, (mt fs cache d).isSome) :
    ∃ b tr, depScan fs cache out l = (Except.ok b, tr) := by
  induction l with
  | nil => exact ⟨false, [], rfl⟩
  | cons d ds ih =>
      have hd : (mt fs cache d).isSome := hl d (List.mem_cons_self d ds)
      obtain ⟨im, him⟩ := Option.isSome_iff_exists.1 hd
      obtain ⟨b, hb⟩ := newerT_ok_of_input fs cache d out him
      obtain ⟨b2, tr2, hrec⟩ := ih (fun x hx => hl x (List.mem_cons_of_mem d hx))
      unfold depScan
      rcases hnt : newerT fs cache d out with ⟨r, tr⟩
      rw [hnt] at hb
      simp only at hb
      subst hb
      cases b with
      | true => exact ⟨true, tr, rfl⟩
      | false =>
          simp only [hrec]
          exact ⟨b2, tr ++ tr2, rfl⟩

/-- The dependency scan reports stale when some dependency's effective
mtime is greater than or equal to the representative output's. -/
theorem depScan_hit (fs cache : FS) (out : String) (l : List String)
    {om : Nat} (ho : mt fs cache out = some om)
    (hl : ∀ x ∈ l, (mt fs cache x).isSome)
    {d : String} {dm : Nat} (hd : d ∈ l) (hdm : mt fs cache d = some dm)
    (hle : om ≤ dm) :
    (depScan fs cache out l).1 = Except.ok true := by
  induction l with
  | nil => cases hd
  | cons e es ih =>
      have he : (mt fs cache e).isSome := hl e (List.mem_cons_self e es)
      obtain ⟨em, hem⟩ := Option.isSome_iff_exists.1 he
      have hfst := newerT_fst fs cache e out hem ho
      unfold depScan
      rcases hnt : newerT fs cache e out with ⟨r, tr⟩
      rw [hnt] at hfst
      simp only at hfst
      subst hfst
      by_cases hcmp : om ≤ em
      · simp [hcmp]
      · rcases List.mem_cons.1 hd with rfl | hd2
        · rw [hem] at hdm
          injection hdm with h
          subst h
          exact absurd hle hcmp
        · have hih := ih (fun x hx => hl x (List.mem_cons_of_mem e hx)) hd2
          simp [hcmp, hih]

/-- C2: the freshness comparison treats equal timestamps as stale.  In
the output phase, whenever some dependency's effective mtime or the
config file's effective mtime is greater than or equal to the
representative output's mtime (om less than or equal to it), is_fresh
reports not fresh, so the asset is regenerated. -/
theorem freshness_tie_counts_stale (ctx : FreshCtx) (st : FreshState)
    (key : String) (depends paths : List String) (lastp : String) (om : Nat)
    (hph : ctx.prereq = false)
    (hlk : alookup st.output_data key = some paths)
    (hlast : paths.getLast? = some lastp)
    (hall : paths.all (fun q => isfile ctx.fs (pjoin ctx.output_dir q)) = true)
    (hom : mt ctx.fs ctx.cache (pjoin ctx.output_dir lastp) = some om)
    (hdeps : ∀ d ∈ depends, (mt ctx.fs ctx.cache d).isSome)
    (htrig : (∃ d ∈ depends, ∃ dm, mt ctx.fs ctx.cache d = some dm ∧ om ≤ dm) ∨
             (∃ cm, mt ctx.fs ctx.cache ctx.config_path = some cm ∧ om ≤ cm)) :
    (is_fresh ctx st key depends).1 = Except.ok false := by
  cases hforce : ctx.force with
  | true => simp [is_fresh, hforce]
  | false =>
      obtain ⟨b, tr, hds⟩ :=
        depScan_ok ctx.fs ctx.cache (pjoin ctx.output_dir lastp) depends hdeps
      rcases htrig with ⟨d, hd, dm, hdm, hle⟩ | ⟨cm, hcm, hle⟩
      · have hhit := depScan_hit ctx.fs ctx.cache (pjoin ctx.output_dir lastp)
          depends hom hdeps hd hdm hle
        rw [hds] at hhit
        simp only at hhit
        injection hhit with hb
        subst hb
        simp [is_fresh, hforce, hph, hlk, hlast, hall, hds]
      · cases b with
        | true => simp [is_fresh, hforce, hph, hlk, hlast, hall, hds]
        | false =>
            have hcfg := newerT_fst ctx.fs ctx.cache ctx.config_path
              (pjoin ctx.output_dir lastp) hcm hom
            rcases hnt : newerT ctx.fs ctx.cache ctx.config_path
              (pjoin ctx.output_dir lastp) with ⟨r, tr2⟩
            rw [hnt] at hcfg
            simp only at hcfg
            have hr : r = Except.ok true := by
              rw [hcfg, decide_eq_true hle]
            subst hr
            simp [is_fresh, hforce, hph, hlk, hlast, hall, hds, hnt]

/-- Concrete oracle for the tie-break witness: the dependency and the
output carry the same mtime. -/
def fsTie : FS := fun p =>
  if p = "out/f" then some 10
  else if p = "d" then some 10
  else if p = "cfg" then some 5
  else none

/-- Empty mtime cache, as run initializes it. -/
def cacheEmpty : FS := fun _ => none

/-- Runner context for the tie-break witness. -/
def ctxTie : FreshCtx :=
  FreshCtx.mk false false "b" "out" "cfg" fsTie cacheEmpty

/-- Produced-path records for the tie-break witness. -/
def stTie : FreshState := FreshState.mk [] [("k", ["f"])]

/-- Witness for C2: with the dependency's mtime equal to the output's,
is_fresh reports not fresh. -/
theorem freshness_tie_counts_stale_check :
    (is_fresh ctxTie stTie "k" ["d"]).1 = Except.ok false := by
  refine freshness_tie_counts_stale ctxTie stTie "k" ["d"] ["f"] "f" 10
    rfl rfl rfl rfl rfl ?_ (Or.inl ⟨"d", List.mem_singleton.2 rfl, 10, rfl, le_refl 10⟩)
  intro x hx
  rw [List.mem_singleton.1 hx]
  rfl

/-- Concrete oracle for the repeated-stat run: one recorded output file,
one dependency, and the config file, all older than nothing unusual. -/
def fsRep : FS := fun p =>
  if p = "out/f" then some 10
  else if p = "d" then some 3
  else if p = "cfg" then some 5
  else none

/-- Runner context for the repeated-stat run, with the empty per-run
mtime cache exactly as run line 709 creates it. -/
def ctxRep : FreshCtx :=
  FreshCtx.mk false false "b" "out" "cfg" fsRep cacheEmpty

/-- Produced-path records for the repeated-stat run. -/
def stRep : FreshState := FreshState.mk [] [("k", ["f"])]

/-- C3 evaluated at its failing input: a single output-phase freshness
check with one dependency stats the representative output path twice --
once for the dependency comparison and once for the config comparison --
because newer consults the shared cache but never stores a stat result
into it, so the claimed stat-at-most-once memoization does not happen. -/
theorem mtime_stat_repeated_on_failing_input :
    (is_fresh ctxRep stRep "k" ["d"]).2.2 = ["d", "out/f", "cfg", "out/f"] ∧
    ((is_fresh ctxRep stRep "k" ["d"]).2.2).count "out/f" = 2 ∧
    (is_fresh ctxRep stRep "k" ["d"]).1 = Except.ok true := by
  refine ⟨rfl, rfl, rfl⟩

/-- C4: the embedding fallback boundary is strict.  For an embed target
with a guessable content type and readable data (resolved on the first
pass), a base64 payload whose length equals the configured data limit is
still inlined as a data URI, while a payload one byte over a nonzero
limit is emitted as the url() form; the default configured limit is
32000. -/
theorem embed_data_limit_boundary (ctx : CSSCtx) (st : CSSState)
    (p ct data : String)
    (hg : ctx.guess p = some ct)
    (hfirst : st.first = true)
    (hun : alookup st.cache p = none)
    (hrd : ctx.fsRead (pjoin ctx.embed_path_root p) = some data) :
    (((b64encode data).length = ctx.data_limit →
        convert_to_data_uri ctx st p =
          Except.ok ("url(\"data:" ++ ct ++ ";base64," ++ b64encode data ++ "\")",
            { st with cache := st.cache ++ [(p, (data, true))] })) ∧
     (ctx.data_limit ≠ 0 → (b64encode data).length = ctx.data_limit + 1 →
        convert_to_data_uri ctx st p =
          Except.ok ("url(\"" ++ get_embed_url ctx p (some data) ++ "\")",
            { st with cache := st.cache ++ [(p, (data, true))] }))) ∧
    css_embed_data_limit_default = 32000 := by
  have hge : get_embed_file ctx st p =
      Except.ok ((data, true), { st with cache := st.cache ++ [(p, (data, true))] }) := by
    simp [get_embed_file, hfirst, hrd, cacheSetdefault, hun]
  refine ⟨⟨?_, ?_⟩, rfl⟩
  · intro hlen
    have hnlt : ¬ (ctx.data_limit ≠ 0 ∧ ctx.data_limit < (b64encode data).length) := by
      rintro ⟨-, hlt⟩
      rw [hlen] at hlt
      exact lt_irrefl _ hlt
    simp [convert_to_data_uri, hg, hge, hnlt]
  · intro hz hlen
    have hlt : ctx.data_limit ≠ 0 ∧ ctx.data_limit < (b64encode data).length := by
      refine ⟨hz, ?_⟩
      rw [hlen]
      exact Nat.lt_succ_self _
    simp [convert_to_data_uri, hg, hge, hlt]

/-- Concrete CSS context for the boundary witness: the base64 payload of
the three-byte file abc has length four, equal to the configured limit. -/
def ctxLimEq : CSSCtx :=
  CSSCtx.mk "r" "u/" false 4 (fun _ => some "image/png") (fun _ => some "abc")
    (fun _ => "h")

/-- Concrete CSS context one byte under the payload: the same payload is
one byte over the configured limit of three. -/
def ctxLimOver : CSSCtx :=
  CSSCtx.mk "r" "u/" false 3 (fun _ => some "image/png") (fun _ => some "abc")
    (fun _ => "h")

/-- Fresh per-generate CSS state. -/
def stCSS0 : CSSState := CSSState.mk true []

/-- Witness for C4: at limit four the payload YWJj (length four) is
inlined; at limit three the same payload falls back to the url() form. -/
theorem embed_data_limit_boundary_check :
    convert_to_data_uri ctxLimEq stCSS0 "a.png" =
      Except.ok ("url(\"data:" ++ "image/png" ++ ";base64," ++ b64encode "abc" ++ "\")",
        CSSState.mk true [("a.png", ("abc", true))]) ∧
    convert_to_data_uri ctxLimOver stCSS0 "a.png" =
      Except.ok ("url(\"" ++ get_embed_url ctxLimOver "a.png" (some "abc") ++ "\")",
        CSSState.mk true [("a.png", ("abc", true))]) := by
  have h1 := embed_data_limit_boundary ctxLimEq stCSS0 "a.png" "image/png" "abc"
    rfl rfl rfl rfl
  have h2 := embed_data_limit_boundary ctxLimOver stCSS0 "a.png" "image/png" "abc"
    rfl rfl rfl rfl
  exact ⟨h1.1.1 rfl, h2.1.2 (by decide) rfl⟩

/-- A phase aborts exactly when it contains a stale asset whose
generation raises AppExit. -/
theorem phaseLoop_error_iff (l : List AssetRun) (st : Bool × Bool) :
    phaseLoop l st = Except.error () ↔
      ∃ a ∈ l, a.fresh = false ∧ a.genOk = false := by
  induction l generalizing st with
  | nil =>
      obtain ⟨c, m⟩ := st
      simp [phaseLoop]
  | cons a rest ih =>
      obtain ⟨c, m⟩ := st
      by_cases hf : a.fresh
      · simp [phaseLoop, hf, ih]
      · by_cases hg : a.genOk
        · simp [phaseLoop, hf, hg, ih]
        · simp only [Bool.not_eq_true] at hf hg
          simp [phaseLoop, hf, hg]

/-- A phase whose assets are all fresh changes nothing. -/
theorem phaseLoop_all_fresh (l : List AssetRun) (st : Bool × Bool)
    (h : ∀ a ∈ l, a.fresh = true) : phaseLoop l st = Except.ok st := by
  induction l generalizing st with
  | nil =>
      obtain ⟨c, m⟩ := st
      rfl
  | cons a rest ih =>
      obtain ⟨c, m⟩ := st
      have ha := h a (List.mem_cons_self a rest)
      simp only [phaseLoop, ha, if_true]
      exact ih _ (fun x hx => h x (List.mem_cons_of_mem a hx))

/-- C5: a run that aborts because some stale asset's generation raises
AppExit, in either the prerequisite or the output phase, performs
neither end-of-run write: the manifest file and the durable state file
keep exactly the contents they had before the run, since both writes
are sequenced after every asset has been processed. -/
theorem abort_leaves_manifest_and_state (cfg : RunCfg) (disk : RunFiles)
    (hfail : ∃ a ∈ cfg.prereqs ++ cfg.outputs, a.fresh = false ∧ a.genOk = false) :
    runModel cfg disk = (disk, Except.error ()) := by
  obtain ⟨a, ha, hfa⟩ := hfail
  rcases List.mem_append.1 ha with h | h
  · have hp : phaseLoop cfg.prereqs (cfg.virgin, false) = Except.error () :=
      (phaseLoop_error_iff _ _).2 ⟨a, h, hfa⟩
    simp [runModel, hp]
  · cases hp : phaseLoop cfg.prereqs (cfg.virgin, false) with
    | error e =>
        cases e
        simp [runModel, hp]
    | ok st1 =>
        have ho : phaseLoop cfg.outputs st1 = Except.error () :=
          (phaseLoop_error_iff _ _).2 ⟨a, h, hfa⟩
        simp [runModel, hp, ho]

/-- Witness for C5: a run whose only output asset is stale and fails to
generate leaves a nonempty prior disk state untouched and aborts. -/
theorem abort_leaves_manifest_and_state_check :
    runModel
      (RunCfg.mk false [] [AssetRun.mk false false false] true false false "m2" "d2")
      (RunFiles.mk (some "m1") (some "d1")) =
      (RunFiles.mk (some "m1") (some "d1"), Except.error ()) := by
  exact abort_leaves_manifest_and_state
    (RunCfg.mk false [] [AssetRun.mk false false false] true false false "m2" "d2")
    (RunFiles.mk (some "m1") (some "d1"))
    ⟨AssetRun.mk false false false, by simp, rfl, rfl⟩

/-- Run configuration for the C6 counterexample: the engine's first
(virgin) invocation, every asset fresh. -/
def cfgVirginFresh : RunCfg :=
  RunCfg.mk true [] [AssetRun.mk true true false] false false false "m" "d"

/-- Counterexample to C6 as stated: on the engine's first run, even with
every asset fresh and nothing regenerated, the durable state file is
written, because the changed flag starts true on the virgin invocation
(run line 699). -/
theorem virgin_fresh_run_writes_state :
    (∀ a ∈ cfgVirginFresh.prereqs ++ cfgVirginFresh.outputs, a.fresh = true) ∧
    (runModel cfgVirginFresh (RunFiles.mk none none)).1.dataFile = some "d" ∧
    ¬ ((runModel cfgVirginFresh (RunFiles.mk none none)).1.dataFile =
        (RunFiles.mk none none).dataFile) := by
  refine ⟨?_, rfl, by decide⟩
  intro a ha
  simp [cfgVirginFresh] at ha
  rw [ha]

/-- C6 as amended: on every invocation after the first (the virgin flag
already cleared) in which no asset is regenerated because every asset is
fresh, the durable state file is not written and the run completes; the
first invocation of an engine instance always writes the durable state,
even when every asset is fresh. -/
theorem nonvirgin_fresh_run_keeps_state_file (cfg : RunCfg) (disk : RunFiles)
    (hv : cfg.virgin = false)
    (hp : ∀ a ∈ cfg.prereqs, a.fresh = true)
    (ho : ∀ a ∈ cfg.outputs, a.fresh = true) :
    (runModel cfg disk).1.dataFile = disk.dataFile ∧
    (runModel cfg disk).2 = Except.ok () := by
  have h1 := phaseLoop_all_fresh cfg.prereqs (cfg.virgin, false) hp
  have h2 := phaseLoop_all_fresh cfg.outputs (cfg.virgin, false) ho
  rw [hv] at h1 h2
  refine ⟨?_, ?_⟩ <;>
    cases hm : cfg.hasManifestPath && (cfg.manifest_force || cfg.force) <;>
      simp [runModel, hv, h1, h2, hm]

/-- Witness for C6's amended statement: a non-virgin all-fresh run keeps
the prior durable state file. -/
theorem nonvirgin_fresh_run_keeps_state_file_check :
    (runModel (RunCfg.mk false [AssetRun.mk true true false] [AssetRun.mk true true false]
        true true false "m2" "d2") (RunFiles.mk (some "m1") (some "d1"))).1.dataFile =
      some "d1" ∧
    (runModel (RunCfg.mk false [AssetRun.mk true true false] [AssetRun.mk true true false]
        true true false "m2" "d2") (RunFiles.mk (some "m1") (some "d1"))).2 =
      Except.ok () := by
  have h := nonvirgin_fresh_run_keeps_state_file
    (RunCfg.mk false [AssetRun.mk true true false] [AssetRun.mk true true false]
      true true false "m2" "d2")
    (RunFiles.mk (some "m1") (some "d1")) rfl
    (by intro a ha; simp at ha; rw [ha]) (by intro a ha; simp at ha; rw [ha])
  exact h

/-- C7: an embed occurrence whose referenced file is missing under the
embed root does not abort generation.  On the first pass the read
failure produces the url() fallback built from the embed URL template
with an empty hash (get_embed_url is called without data), the fallback
is cached with ok flag false, and both replacers return it as an
ordinary successful substitution, so the run proceeds. -/
theorem missing_embed_url_fallback (ctx : CSSCtx) (st : CSSState) (p ct : String)
    (hfirst : st.first = true)
    (hun : alookup st.cache p = none)
    (hrd : ctx.fsRead (pjoin ctx.embed_path_root p) = none) :
    (get_embed_url ctx p none =
       ctx.embed_url_base ++ (pathSplit p).1 ++ "/" ++ (pathSplit p).2) ∧
    (convert_to_url ctx st p =
       Except.ok ("url(\"" ++ get_embed_url ctx p none ++ "\")",
         { st with cache := st.cache ++
             [(p, ("url(\"" ++ get_embed_url ctx p none ++ "\")", false))] })) ∧
    (ctx.guess p = some ct →
       convert_to_data_uri ctx st p =
         Except.ok ("url(\"" ++ get_embed_url ctx p none ++ "\")",
           { st with cache := st.cache ++
               [(p, ("url(\"" ++ get_embed_url ctx p none ++ "\")", false))] })) := by
  have hge : get_embed_file ctx st p =
      Except.ok (("url(\"" ++ get_embed_url ctx p none ++ "\")", false),
        { st with cache := st.cache ++
            [(p, ("url(\"" ++ get_embed_url ctx p none ++ "\")", false))] }) := by
    simp [get_embed_file, hfirst, hrd, cacheSetdefault, hun]
  refine ⟨?_, ?_, ?_⟩
  · simp [get_embed_url]
  · simp [convert_to_url, hge]
  · intro hg
    simp [convert_to_data_uri, hg, hge]

/-- Concrete CSS context for the missing-embed witness: every read fails. -/
def ctxMissing : CSSCtx :=
  CSSCtx.mk "r" "u/" true 32000 (fun _ => some "image/png") (fun _ => none)
    (fun _ => "h")

/-- Witness for C7: the missing target img/a.png resolves to a url()
fallback with an empty hash in both substitution modes. -/
theorem missing_embed_url_fallback_check :
    get_embed_url ctxMissing "img/a.png" none = "u/" ++ "img" ++ "/" ++ "a.png" ∧
    convert_to_url ctxMissing stCSS0 "img/a.png" =
      Except.ok ("url(\"" ++ get_embed_url ctxMissing "img/a.png" none ++ "\")",
        CSSState.mk true
          [("img/a.png", ("url(\"" ++ get_embed_url ctxMissing "img/a.png" none ++ "\")",
            false))]) ∧
    convert_to_data_uri ctxMissing stCSS0 "img/a.png" =
      Except.ok ("url(\"" ++ get_embed_url ctxMissing "img/a.png" none ++ "\")",
        CSSState.mk true
          [("img/a.png", ("url(\"" ++ get_embed_url ctxMissing "img/a.png" none ++ "\")",
            false))]) := by
  have h := missing_embed_url_fallback ctxMissing stCSS0 "img/a.png" "image/png"
    rfl rfl rfl
  exact ⟨h.1.trans (by decide), h.2.1, h.2.2 rfl⟩

/-- C8: a durable state whose deserialization raises at engine
construction degrades silently to the empty record -- the same record an
absent durable file yields -- and with an empty record every output-phase
freshness check reports stale, forcing full regeneration. -/
theorem corrupt_state_degrades_to_empty :
    (loadData (some (Except.error ())) = loadData none) ∧
    (loadData (some (Except.error ())) = []) ∧
    (∀ (ctx : FreshCtx) (key : String) (depends : List String),
       ctx.prereq = false →
       (is_fresh ctx (FreshState.mk [] []) key depends).1 = Except.ok false) := by
  refine ⟨rfl, rfl, ?_⟩
  intro ctx key depends hph
  cases hforce : ctx.force with
  | true => simp [is_fresh, hforce]
  | false => simp [is_fresh, hforce, hph, alookup]

/-- Witness for C8: with the empty record recovered from a corrupt
durable state, a concrete output-phase freshness check reports stale. -/
theorem corrupt_state_degrades_to_empty_check :
    (is_fresh (FreshCtx.mk false false "b" "out" "cfg" fsRep cacheEmpty)
      (FreshState.mk [] []) "k" ["d"]).1 = Except.ok false := by
  exact corrupt_state_degrades_to_empty.2.2
    (FreshCtx.mk false false "b" "out" "cfg" fsRep cacheEmpty) "k" ["d"] rfl

/-- C9: an embed occurrence processed in data-URI mode whose path has no
guessable content type raises the fatal AppExit before the filesystem is
even consulted -- the result is the same for every read oracle -- and so
aborts the run, in contrast with a missing embed file, which with a
guessable type yields an ordinary successful url() fallback. -/
theorem unguessable_ctype_aborts (ctx : CSSCtx) (st : CSSState) (p : String)
    (hg : ctx.guess p = none) :
    (∀ rd : String → Option String,
       convert_to_data_uri
         (CSSCtx.mk ctx.embed_path_root ctx.embed_url_base ctx.hashed
           ctx.data_limit ctx.guess rd ctx.s1) st p =
         Except.error PyErr.appExit) ∧
    (∀ p2 ct2 : String,
       ctx.guess p2 = some ct2 → st.first = true →
       alookup st.cache p2 = none →
       ctx.fsRead (pjoin ctx.embed_path_root p2) = none →
       convert_to_data_uri ctx st p2 =
         Except.ok ("url(\"" ++ get_embed_url ctx p2 none ++ "\")",
           { st with cache := st.cache ++
               [(p2, ("url(\"" ++ get_embed_url ctx p2 none ++ "\")", false))] })) := by
  constructor
  · intro rd
    simp [convert_to_data_uri, hg]
  · intro p2 ct2 hg2 hfirst hun hrd
    exact (missing_embed_url_fallback ctx st p2 ct2 hfirst hun hrd).2.2 hg2

/-- Concrete CSS context for the unguessable-type witness: the extension
.unknownext has no MIME type, while a.png does; all reads fail. -/
def ctxNoType : CSSCtx :=
  CSSCtx.mk "r" "u/" false 32000
    (fun q => if q = "f.unknownext" then none else some "image/png")
    (fun _ => none) (fun _ => "h")

/-- Witness for C9: the unguessable f.unknownext aborts with AppExit
under an arbitrary read oracle, while the guessable but missing a.png
succeeds with the fallback. -/
theorem unguessable_ctype_aborts_check :
    convert_to_data_uri
      (CSSCtx.mk ctxNoType.embed_path_root ctxNoType.embed_url_base
        ctxNoType.hashed ctxNoType.data_limit ctxNoType.guess
        (fun _ => some "bytes") ctxNoType.s1) stCSS0 "f.unknownext" =
      Except.error PyErr.appExit ∧
    convert_to_data_uri ctxNoType stCSS0 "a.png" =
      Except.ok ("url(\"" ++ get_embed_url ctxNoType "a.png" none ++ "\")",
        CSSState.mk true
          [("a.png", ("url(\"" ++ get_embed_url ctxNoType "a.png" none ++ "\")",
            false))]) := by
  have h := unguessable_ctype_aborts ctxNoType stCSS0 "f.unknownext" rfl
  exact ⟨h.1 (fun _ => some "bytes"), h.2 "a.png" "image/png" rfl rfl rfl rfl⟩

/-- C10: after the first substitution pass of a generate() call the
first-pass flag is cleared, so get_embed_file no longer consults the
filesystem (its result is the same under any two read oracles) and looks
the relative path up in the per-call cache unguarded: with the path
absent from the cache both replacers fail with the unhandled keyError,
not the recoverable AppExit, and a generate() whose second bidi variant
introduces a fresh embed path aborts with that keyError. -/
theorem later_pass_cache_unguarded (ctx : CSSCtx)
    (f g : String → Option String) (st : CSSState) (p ct : String)
    (hfirst : st.first = false) :
    (get_embed_file
       (CSSCtx.mk ctx.embed_path_root ctx.embed_url_base ctx.hashed
         ctx.data_limit ctx.guess f ctx.s1) st p =
     get_embed_file
       (CSSCtx.mk ctx.embed_path_root ctx.embed_url_base ctx.hashed
         ctx.data_limit ctx.guess g ctx.s1) st p) ∧
    (alookup st.cache p = none →
       convert_to_url ctx st p = Except.error PyErr.keyError) ∧
    (alookup st.cache p = none → ctx.guess p = some ct →
       convert_to_data_uri ctx st p = Except.error PyErr.keyError) ∧
    (ctx.guess p = some ct →
       cssGenerate ctx false [[], [p]] = Except.error PyErr.keyError) := by
  refine ⟨?_, ?_, ?_, ?_⟩
  · simp [get_embed_file, hfirst]
  · intro hun
    simp [convert_to_url, get_embed_file, hfirst, hun]
  · intro hun hg
    simp [convert_to_data_uri, hg, get_embed_file, hfirst, hun]
  · intro hg
    simp [cssGenerate, bidiLoop, cssEmbed, embedSub, convert_to_data_uri, hg,
      get_embed_file, alookup]

/-- Witness for C10: a generate() call whose first bidi variant has no
embeds and whose flipped variant references a.png aborts with keyError,
and on a non-first pass an uncached lookup in url() mode also raises
keyError. -/
theorem later_pass_cache_unguarded_check :
    cssGenerate ctxMissing false [[], ["a.png"]] = Except.error PyErr.keyError ∧
    convert_to_url ctxMissing (CSSState.mk false []) "a.png" =
      Except.error PyErr.keyError := by
  have h := later_pass_cache_unguarded ctxMissing
    (fun _ => none) (fun _ => some "x") (CSSState.mk false []) "a.png" "image/png" rfl
  exact ⟨h.2.2.2 rfl, h.2.1 rfl⟩

end Assetgen
